import Mathlib

/-
Verification development for the mesh-to-part resolution and
material-assignment engine of the product-configurator repository.

The definitions below are a shallow embedding of:
  * src/components/ModelViewer/TestModelViewer.tsx
      (meshMatchesSelector, findPartForMesh, isExcludedFromColor,
       FIXED_BLACK_PARTS, createMaterialFromDefinition, and the
       material-application effect of RifleModel), and
  * src/state/useConfigStore.ts
      (setFinishMode, selectPattern, selectPartColor,
       setPartColorOverride, getSelectedMaterials).

Modelling conventions:
  * JavaScript strings are Lean `String`s (ASCII case folding:
    `String.prototype.toLowerCase` and the regex `i` flag agree with
    ASCII folding on the identifiers this program handles).
  * JavaScript objects used as string-keyed dictionaries are
    association lists with first-match lookup; `{...m, k: v}` and
    `delete m[k]` are modelled extensionally by `alSet` / `alErase`.
  * `null`/`undefined`-able values are `Option`; JS truthiness of a
    nullable string ("" and null are falsy) is `jsTruthyS`.
  * Numeric material parameters (metalness, roughness, tiling) are
    modelled as rationals; the program never computes with them, it
    only stores and compares them.
-/

/-- ASCII lower-casing of one character, as both `toLowerCase` and the
regex `i` flag act on the ASCII identifiers handled by the program. -/
def jsToLower (c : Char) : Char :=
  if 'A' ≤ c ∧ c ≤ 'Z' then Char.ofNat (c.toNat + 32) else c

/-- Case-insensitive character comparison. -/
def charEqCI (a b : Char) : Bool :=
  jsToLower a == jsToLower b

/-- Lower-case a character list. -/
def lowerChars (l : List Char) : List Char :=
  l.map jsToLower

/-- The characters a JavaScript regex `.` (without the `s` flag) does
NOT match: the line terminators. -/
def isLineTerminatorChar (c : Char) : Bool :=
  c == '\n' || c == '\r' || c == Char.ofNat 0x2028 || c == Char.ofNat 0x2029

/-- What the compiled wildcard `.*` may consume in the source:
any character except a line terminator. -/
def jsStarChar (c : Char) : Bool :=
  !isLineTerminatorChar c

/-- JavaScript `String.prototype.includes` on character lists
(contiguous-sublist containment). -/
def containsSub (l sub : List Char) : Bool :=
  match l with
  | [] => sub.isEmpty
  | _ :: t => sub.isPrefixOf l || containsSub t sub

/-- The suffixes of a mesh-name remainder reachable by letting a
wildcard consume zero or more leading characters satisfying `star`
(in order of how many characters are consumed). -/
def starSuffixes (star : Char → Bool) : List Char → List (List Char)
  | [] => [[]]
  | c :: ms => (c :: ms) :: (if star c then starSuffixes star ms else [])

/-- Anchored glob matching: the selector (first list) is matched
against the mesh name (second list); every selector character is a
case-insensitive literal except `*`, which consumes zero or more mesh
characters satisfying `star`.  This is the meaning of the source's
escape-metacharacters / `*` → `.*` / anchored `i`-regex construction,
parameterised by what `.` may match. -/
def globMatchP (star : Char → Bool) : List Char → List Char → Bool
  | [], ms => ms.isEmpty
  | p :: ps, ms =>
    if p = '*' then
      (starSuffixes star ms).any (fun rest => globMatchP star ps rest)
    else
      match ms with
      | [] => false
      | c :: ms2 => charEqCI p c && globMatchP star ps ms2

/-- The wildcard rule as the source computes it (regex `.`:
no line terminators). -/
def wildcardRuleCode (meshName selector : String) : Bool :=
  globMatchP jsStarChar selector.data meshName.data

/-- The wildcard rule as the claim words it: `*` becomes
"zero or more of any character". -/
def wildcardRuleAnyChar (meshName selector : String) : Bool :=
  globMatchP (fun _ => true) selector.data meshName.data

/-- `str.replace(/\d+/g, 'N')`: each maximal digit run becomes a
single `N`.  The flag records whether the previous character was a
digit (inside a run). -/
def replaceDigitRunsAux (prevDigit : Bool) : List Char → List Char
  | [] => []
  | c :: t =>
    if c.isDigit then
      (if prevDigit then [] else ['N']) ++ replaceDigitRunsAux true t
    else
      c :: replaceDigitRunsAux false t

/-- The second replacement of `normalizePattern` (regex: a hyphen
followed by digits, anchored at the end): strip a trailing
hyphen-digits suffix if present.  (In the source this runs after digit replacement,
so it can never fire; it is embedded faithfully anyway.) -/
def stripTrailingDashNum (l : List Char) : List Char :=
  let r := l.reverse
  let ds := r.takeWhile Char.isDigit
  if ds ≠ [] ∧ (r.drop ds.length).head? = some '-' then
    (r.drop (ds.length + 1)).reverse
  else l

/-- `normalizePattern` from `meshMatchesSelector` rule 4. -/
def normalizePattern (s : String) : List Char :=
  lowerChars (stripTrailingDashNum (replaceDigitRunsAux false s.data))

/-- `meshMatchesSelector(meshName, selector)` from
TestModelViewer.tsx lines 20-63. -/
def meshMatchesSelector (meshName selector : String) : Bool :=
  if meshName = selector then true
  else if selector.data.contains '*' then
    wildcardRuleCode meshName selector
  else if ¬ selector.data.contains '_' ∧ ¬ selector.data.contains '-' then
    containsSub (lowerChars meshName.data) (lowerChars selector.data)
  else
    let nm := normalizePattern meshName
    let ns := normalizePattern selector
    containsSub nm ns || containsSub ns nm

/-- The Selector Matcher exactly as claim C5 words its rules, with
`*` matching "zero or more of any character". -/
def matchesClaimRules (meshName selector : String) : Bool :=
  if meshName = selector then true
  else if selector.data.contains '*' then
    wildcardRuleAnyChar meshName selector
  else if ¬ selector.data.contains '_' ∧ ¬ selector.data.contains '-' then
    containsSub (lowerChars meshName.data) (lowerChars selector.data)
  else
    let nm := normalizePattern meshName
    let ns := normalizePattern selector
    containsSub nm ns || containsSub ns nm

/-- Claim C5's rules amended only in the wildcard character class:
`*` matches zero or more of any character other than a line
terminator (the meaning of the `.`-based regex the source builds). -/
def matchesClaimRulesAmended (meshName selector : String) : Bool :=
  if meshName = selector then true
  else if selector.data.contains '*' then
    wildcardRuleCode meshName selector
  else if ¬ selector.data.contains '_' ∧ ¬ selector.data.contains '-' then
    containsSub (lowerChars meshName.data) (lowerChars selector.data)
  else
    let nm := normalizePattern meshName
    let ns := normalizePattern selector
    containsSub nm ns || containsSub ns nm

/-- JS truthiness of a nullable string: `null`/`undefined` and the
empty string are falsy. -/
def jsTruthyS (o : Option String) : Bool :=
  match o with
  | none => false
  | some s => !(s == "")

/-- JS `a || b` on nullable strings: the first operand if truthy,
otherwise the second. -/
def jsOrS (a b : Option String) : Option String :=
  if jsTruthyS a then a else b

/-- JS object lookup on a string-keyed dictionary. -/
def alGet {α : Type} (m : List (String × α)) (k : String) : Option α :=
  (m.find? (fun p => p.1 == k)).map (·.2)

/-- JS `{...m, [k]: v}` (extensionally: every other key unchanged,
`k` bound to `v`). -/
def alSet {α : Type} (m : List (String × α)) (k : String) (v : α) :
    List (String × α) :=
  m.filter (fun p => !(p.1 == k)) ++ [(k, v)]

/-- JS `delete m[k]` on a copy of `m`. -/
def alErase {α : Type} (m : List (String × α)) (k : String) :
    List (String × α) :=
  m.filter (fun p => !(p.1 == k))

/-- A material definition from the manifest (duck-typed in the
source; the fields the engine reads).  `repeatMap` embeds the
source's `repeat` tiling map (part id → [repeatU, repeatV]). -/
structure MaterialDef where
  type : Option String := none
  color : Option String := none
  textureUrl : Option String := none
  metalness : Option ℚ := none
  roughness : Option ℚ := none
  repeatMap : Option (List (String × (ℚ × ℚ))) := none
deriving DecidableEq

/-- A finish option (`{id, material, ...}`) of a finish mode. -/
structure FinishOption where
  id : String
  material : MaterialDef
deriving DecidableEq

/-- One finish mode (`{options: [...]}`); `options` is optional in
the source (`?.options`). -/
structure FinishModeDef where
  options : Option (List FinishOption) := none
deriving DecidableEq

/-- `manifest.finishModes`: the two named modes, each optional. -/
structure FinishModes where
  colors : Option FinishModeDef := none
  patterns : Option FinishModeDef := none
deriving DecidableEq

/-- A manifest part entry (the fields the engine reads). -/
structure ManifestPart where
  id : String
  meshSelectors : Option (List String) := none
  excludeFromColor : Option (List String) := none
deriving DecidableEq

/-- The manifest (the fields the engine reads; all optional exactly
where the source optional-chains). -/
structure Manifest where
  parts : Option (List ManifestPart) := none
  configurableParts : Option (List String) := none
  finishModes : Option FinishModes := none
deriving DecidableEq

/-- The configuration-state fields the engine and the store actions
read and write (useConfigStore.ts). -/
structure ConfigState where
  finishMode : String
  selectedPattern : Option String := none
  selectedColors : List (String × String) := []
  partColorOverrides : List (String × String) := []
  selectedCaliber : Option String := none
  selectedSuppressor : Option String := none
  selectedTrigger : Option String := none
  configId : String := ""
deriving DecidableEq

/-- `manifest.parts?.find(p => p.id === partId)`. -/
def findPartById (m : Manifest) (pid : String) : Option ManifestPart :=
  m.parts.bind (List.find? (fun p => p.id == pid))

/-- `findPartForMesh(meshName, configurableParts, manifest)` from
TestModelViewer.tsx lines 68-85: first part id (in list order) one of
whose selectors matches the mesh name; parts missing from the
manifest or without `meshSelectors` are skipped. -/
def findPartForMesh (meshName : String) : List String → Manifest → Option String
  | [], _ => none
  | pid :: rest, m =>
    match findPartById m pid with
    | some part =>
      match part.meshSelectors with
      | some sels =>
        if sels.any (fun sel => meshMatchesSelector meshName sel) then some pid
        else findPartForMesh meshName rest m
      | none => findPartForMesh meshName rest m
    | none => findPartForMesh meshName rest m

/-- Whether the part id's manifest entry has a selector matching the
mesh name (the per-part test `findPartForMesh` performs). -/
def partMatchesMesh (m : Manifest) (meshName pid : String) : Bool :=
  match findPartById m pid with
  | some part =>
    match part.meshSelectors with
    | some sels => sels.any (fun sel => meshMatchesSelector meshName sel)
    | none => false
  | none => false

/-- `isExcludedFromColor(meshName, partId, manifest)` from
TestModelViewer.tsx lines 91-107. -/
def isExcludedFromColor (meshName pid : String) (m : Manifest) : Bool :=
  match findPartById m pid with
  | some part =>
    match part.excludeFromColor with
    | some excl => excl.any (fun sel => meshMatchesSelector meshName sel)
    | none => false
  | none => false

/-- `mode?.options?.find(o => o.id === i)` for a nullable option id
(`none` when the id is null or nothing is found). -/
def findModeOption (mo : Option FinishModeDef) (idOpt : Option String) :
    Option FinishOption :=
  match idOpt with
  | none => none
  | some i => (mo.bind (·.options)).bind (List.find? (fun o => o.id == i))

/-- The Material Resolver of the applicator (TestModelViewer.tsx
lines 600-644): given the finish mode, selected pattern, per-part
overrides and per-part colors, the material definition to apply to a
matched part (`none` when nothing resolves). -/
def resolveMaterialToApply (fm : FinishModes) (st : ConfigState) (pid : String) :
    Option MaterialDef :=
  if st.finishMode = "patterns" ∧ jsTruthyS st.selectedPattern then
    if jsTruthyS (alGet st.partColorOverrides pid) then
      (findModeOption fm.colors (alGet st.partColorOverrides pid)).map (·.material)
    else
      (findModeOption fm.patterns st.selectedPattern).map (·.material)
  else if st.finishMode = "patterns" ∧ ¬ jsTruthyS st.selectedPattern then
    let colorId := jsOrS (alGet st.partColorOverrides pid) (alGet st.selectedColors pid)
    if jsTruthyS colorId then
      (findModeOption fm.colors colorId).map (·.material)
    else none
  else if st.finishMode = "colors" then
    if jsTruthyS (alGet st.selectedColors pid) then
      (findModeOption fm.colors (alGet st.selectedColors pid)).map (·.material)
    else none
  else none

/-- The hub-mount coupling resolution (TestModelViewer.tsx lines
525-552): the material the adapter mirrors when a suppressor is
attached, looked up against the muzzle-brake part id.  `none` when no
branch produces a material (the source then falls through to the
normal configurable-part logic). -/
def hubSuppressorMaterial (fm : FinishModes) (st : ConfigState) :
    Option MaterialDef :=
  if jsTruthyS (alGet st.partColorOverrides "muzzleBrake") then
    (findModeOption fm.colors (alGet st.partColorOverrides "muzzleBrake")).map (·.material)
  else if st.finishMode = "patterns" ∧ jsTruthyS st.selectedPattern then
    (findModeOption fm.patterns st.selectedPattern).map (·.material)
  else if st.finishMode = "colors" ∧ jsTruthyS (alGet st.selectedColors "muzzleBrake") then
    (findModeOption fm.colors (alGet st.selectedColors "muzzleBrake")).map (·.material)
  else none

/-- `FIXED_BLACK_PARTS` from TestModelViewer.tsx lines 114-263:
mesh names that are always rendered in the static neutral-dark
material (checked by exact name). -/
def FIXED_BLACK_PARTS : List String := [
  "98381A508_Dowel_Pin_98381A508",
  "98381A508_Dowel_Pin_98381A509",
  "Dowel_Pins_MASTER_D125x3125STEP",
  "CT_1-003_Rail_Screw_91251A192",
  "CT_1-003_Rail_Screw_91251A193",
  "CT_1-003_Rail_Screw_91251A194",
  "CT_1-003_Rail_Screw_91251A195",
  "CT_1-005_Stock_Lock_Spring_1986K616",
  "CT_1-005_Stock_Lock_Spring_1986K617",
  "CT_1-007_Cover_Plate_Screw_91251A191",
  "CT_1-007_Cover_Plate_Screw_91251A192",
  "CT_1-008_Ratchet",
  "CT_1-009_Ratchet_Spring_1986K75",
  "CT_1-010_Ratchet_Pin",
  "CT_1-011_Ratchet_Pin_Head",
  "CT_1-011_Ratchet_Pin_Head001",
  "CT_1-012_Handle_Pin_98470A136",
  "CT_1-012_Handle_Pin_98470A137",
  "CT_1-012_Handle_Pin_98470A138",
  "CT_1-012_Handle_Pin_98470A139",
  "CT_1-014_Handle_Mount_Screw_91251A542",
  "CT_1-014_Handle_Mount_Screw_91251A543",
  "CT_1-016_Bolt_Release_Screw_91259A465",
  "CT_1-017_Bolt_Release_Detent_90145A507",
  "CT_1-018_Bolt_Release_Spring_1986K55",
  "CT_1-019_Bolt_Release_Roll_Pin_92373A141",
  "CT_1-021_Trigger_Pin_98380A479",
  "CT_1-021_Trigger_Pin_98380A480",
  "CT_1-023_Trigger_Guard_Screw_91274A064",
  "CT_1-023_Trigger_Guard_Screw_91274A065",
  "CT_1-023_Trigger_Guard_Screw_91274A066",
  "CT_1-025_Mag_Release_Spring_9435K34",
  "CT_1-026_Mag_Release_Roll_Pin_92373A185",
  "CT_1-028_Pistol_Grip_Screw_91251A540",
  "CT_1-027_Pistol_Grip_-_B5_Type_22",
  "CT_2-001_Bolt_Head",
  "CT_2-002_Bolt_Guide",
  "CT_2-003_Bolt_Guide_Spring_Smalley_SSR-0100-H",
  "CT_2-004_Bolt_Retainer_Pin",
  "CT_2-005_Bolt_Body",
  "CT_2-010_Cam_Detent_9291K048",
  "CT_2-010_Cam_Detent_9291K47",
  "CT_2-011_Cam_Spring_9435K42",
  "CT_2-012_Sear",
  "CT_2-013_Firing_Pin",
  "CT_2-014_Firing_Pin_Spring_Compressed",
  "CT_2-015_Locking_Ring",
  "CT_2-016_Firing_Pin_Retainer",
  "CT_2-017_Firing_Pin_Tensioner",
  "CT_2-018_Extractor",
  "CT_2-019_Extractor_Spring_1986K56",
  "CT_2-020_Extractor_Detent_9291K45",
  "CT_2-021_Ejector",
  "CT_2-022_Ejector_Spring_1986K49",
  "CT_2-023_Ejector_Roll_Pin_92373A179",
  "CT_3-005_Barrel_Alignment_Pin_90145A501",
  "CT_4-002_Recoil_Pad_Screw_91251A342",
  "CT_4-002_Recoil_Pad_Screw_91251A343",
  "CT_4-004L_Stock_Rod_Left",
  "CT_4-004R_Stock_Rod_Right",
  "CT_4-005_Stock_Rod_Screw_91253A537",
  "CT_4-005_Stock_Rod_Screw_91253A538",
  "CT_4-007_Cheek_Piece_Bracket_Screw_91253A006",
  "CT_4-007_Cheek_Piece_Bracket_Screw_91253A007",
  "CT_4-009_Cheek_Piece_Retainer_Dowel_90145A506",
  "CT_4-010_Cheek_Piece_Screw_91255A267",
  "CT_4-010_Cheek_Piece_Screw_91255A268",
  "CT_4-013_Monopod_Screw_91251A541",
  "CT_4-014_Monopod_Spring_1986K59",
  "CT_4-015_Monopod_Retainer_Screw_91255A194",
  "CT_5-003_Handguard_Clamp_Screw_91251A540",
  "CT_5-006_Handle_Clamp_Screw_91251A535",
  "CT_5-006_Handle_Clamp_Screw_91251A536",
  "CT_5-006_Handle_Clamp_Screw_91251A537",
  "CT_5-006_Handle_Clamp_Screw_91251A538",
  "CT_5-008-2_Bipod_Bracket_Screw_64835K067",
  "CT_5-008-2_Bipod_Bracket_Screw_64835K068",
  "CT_5-008-2_Bipod_Bracket_Screw_64835K66",
  "CT_5-012-2_Bipod_Locking_Pin_Spring_1986K751",
  "CT_5-012-2_Bipod_Locking_Pin_Spring_1986K752",
  "CT_5-014-2_Swivel_Washer_92678A182",
  "CT_5-014-2_Swivel_Washer_92678A183",
  "CT_5-014-2_Swivel_Washer_92678A184",
  "CT_5-014-2_Swivel_Washer_92678A185",
  "CT_5-015_Bipod_Swivel_Screw_91259A619",
  "CT_5-015_Bipod_Swivel_Screw_91259A620",
  "CT_5-019-2_Bipod_Foot_Release_Housing_Roll_Pin_92373A147",
  "CT_5-019-2_Bipod_Foot_Release_Housing_Roll_Pin_92373A148",
  "CT_5-021_Bipod_Foot_Release_Spring_1986K065",
  "CT_5-021_Bipod_Foot_Release_Spring_1986K64",
  "CT_5-022_Bipod_Foot_Release_Screw_91255A106",
  "CT_5-022_Bipod_Foot_Release_Screw_91255A107",
  "CT_5-023-2_Bipod_Foot_Detent_8490A822",
  "CT_5-023-2_Bipod_Foot_Detent_8490A823",
  "CT_5-023-2_Bipod_Foot_Detent_8490A825",
  "CT_5-023-2_Bipod_Foot_Detent_8490A826",
  "CT_5-024-2_Bipod_Rubber_Foot",
  "CT_5-024-2_Bipod_Rubber_Foot001",
  "CT_6-002_Magazine_Follower",
  "E_CLIP_125_97431A240STEP",
  "E_CLIP_125_97431A240STEP001",
  "Limbsaver_TRAP_GRIND_TO_FIT_Butt_Padstep",
  "CT_4-001_Butt_Pad_-_Limbsaver_TRAP_GRIND_TO_FITstep",
  "set_screws,_cone_point_MASTER_8-32_x_375STEP",
  "set_screws,_oval_point_MASTER_4-40_x_500_STEP",
  "set_screws,_oval_point_MASTER_8-32_x_500_STEP",
  "CPREM1STEP",
  "CPREM2STEP",
  "HOREM700RH-2STEP",
  "KNREM700BSALOSTEP",
  "KNREM700BSASHSTEP",
  "SAREM700BBLSTEP"
]

/-- `alwaysBlackMeshes` from `getSelectedMaterials`
(useConfigStore.ts lines 523-534). -/
def alwaysBlackMeshes : List String := [
  "Direct_Thread_HUB_Mount",
  "*HUB_Mount*",
  "CT_2-006_Bolt_Handle_Shaft",
  "CT_2-007_Bolt_Handle_Knob",
  "CT_5-013-2_Bipod_Locking_Pin_Release_Knob",
  "CT_5-013-2_Bipod_Locking_Pin_Release_Knob001",
  "CT_5-018-2_Bipod_Foot_Release_Housing",
  "CT_5-018-2_Bipod_Foot_Release_Housing001",
  "CT_5-020_Bipod_Foot_Release",
  "CT_5-020_Bipod_Foot_Release001"
]

/-- The `blackMaterial` definition of `getSelectedMaterials`. -/
def blackMaterial : MaterialDef :=
  { type := some "color", color := some "#000000",
    metalness := some (mkRat 3 10), roughness := some (mkRat 8 10) }

/-- `shouldStayBlack(meshName)` from `getSelectedMaterials`: a
pattern of the form `*x*` means containment of `x`, anything else is
exact equality. -/
def shouldStayBlack (meshName : String) : Bool :=
  alwaysBlackMeshes.any fun pat =>
    if pat.data.head? = some '*' ∧ pat.data.getLast? = some '*' then
      containsSub meshName.data ((pat.data.drop 1).dropLast)
    else meshName == pat

/-- Assign `mat` to every selector of the list that is not on the
always-black list (the inner `forEach` of `getSelectedMaterials`). -/
def applySelectorsNB (mm : List (String × MaterialDef))
    (sels : List String) (mat : MaterialDef) : List (String × MaterialDef) :=
  sels.foldl (fun acc sel => if shouldStayBlack sel then acc else alSet acc sel mat) mm

/-- The trigger-assembly pass of `getSelectedMaterials`: every
selector of the part with id `triggerAssembly` is forced black. -/
def triggerBlack (m : Manifest) (mm : List (String × MaterialDef)) :
    List (String × MaterialDef) :=
  match findPartById m "triggerAssembly" with
  | some part =>
    (part.meshSelectors.getD []).foldl (fun acc sel => alSet acc sel blackMaterial) mm
  | none => mm

/-- One part of the pattern-mode branch of `getSelectedMaterials`:
an override colour if one is set (and found), otherwise the selected
pattern's material. -/
def patternPartApply (m : Manifest) (st : ConfigState) (patMat : MaterialDef)
    (mm : List (String × MaterialDef)) (pid : String) : List (String × MaterialDef) :=
  let ov := alGet st.partColorOverrides pid
  if jsTruthyS ov then
    match findModeOption (m.finishModes.bind (·.colors)) ov with
    | some co =>
      match findPartById m pid with
      | some part => applySelectorsNB mm (part.meshSelectors.getD []) co.material
      | none => mm
    | none => mm
  else
    match findPartById m pid with
    | some part => applySelectorsNB mm (part.meshSelectors.getD []) patMat
    | none => mm

/-- One part of the colour-driven branches of `getSelectedMaterials`:
look the colour id up in the colors mode and apply it to the part's
selectors. -/
def colorIdApply (m : Manifest) (mm : List (String × MaterialDef))
    (pid : String) (colorId : Option String) : List (String × MaterialDef) :=
  if jsTruthyS colorId then
    match findModeOption (m.finishModes.bind (·.colors)) colorId with
    | some co =>
      match findPartById m pid with
      | some part => applySelectorsNB mm (part.meshSelectors.getD []) co.material
      | none => mm
    | none => mm
  else mm

/-- `getSelectedMaterials()` from useConfigStore.ts lines 509-693:
the legacy per-mesh-name material table. -/
def getSelectedMaterials (m : Manifest) (st : ConfigState) :
    List (String × MaterialDef) :=
  let mm1 := triggerBlack m []
  let cp := m.configurableParts.getD []
  let mm2 :=
    if st.finishMode = "patterns" then
      if jsTruthyS st.selectedPattern then
        match findModeOption (m.finishModes.bind (·.patterns)) st.selectedPattern with
        | some po => cp.foldl (patternPartApply m st po.material) mm1
        | none => mm1
      else if ¬ st.partColorOverrides.isEmpty then
        cp.foldl (fun acc pid =>
          colorIdApply m acc pid
            (jsOrS (alGet st.partColorOverrides pid) (alGet st.selectedColors pid))) mm1
      else
        cp.foldl (fun acc pid => colorIdApply m acc pid (alGet st.selectedColors pid)) mm1
    else if st.finishMode = "colors" then
      cp.foldl (fun acc pid => colorIdApply m acc pid (alGet st.selectedColors pid)) mm1
    else mm1
  alwaysBlackMeshes.foldl (fun acc pat => alSet acc pat blackMaterial) mm2

/-- The per-mesh outcome of one material-application pass
(the `traverse` callback of RifleModel, TestModelViewer.tsx lines
498-726).  Each constructor records which assignment the source
performs and the data that determines the assigned material:
`fixedBlack` (lines 503-510), `crash` (the unguarded
`manifest.finishModes.colors` access in the hub branch when
`finishModes` is absent), `hubCoupled` (lines 555-564, factory part
id `muzzleBrake`), `excluded` (lines 587-594), `applied` (resolved
definition plus highlight flag), `appliedDefault` (lines 711-724),
`legacy` (lines 651-659) and `unchanged` (no assignment). -/
inductive MeshDecision where
  | fixedBlack
  | crash
  | hubCoupled (d : MaterialDef)
  | excluded
  | applied (pid : String) (d : MaterialDef) (highlighted : Bool)
  | appliedDefault (pid : String)
  | legacy (d : MaterialDef) (highlighted : Bool)
  | unchanged
deriving DecidableEq

/-- The highlight test of the applicator:
`(hoveredPartId && partId === hoveredPartId) ||
 (selectedPartId && partId === selectedPartId)`. -/
def highlightFor (hov sel : Option String) (pid : String) : Bool :=
  (jsTruthyS hov && (hov == some pid)) || (jsTruthyS sel && (sel == some pid))

/-- The legacy fallback (lines 651-659) plus the highlight
re-derivation the source performs inside the assignment branch
(lines 672-679, with `configurableParts || []`). -/
def legacyApply (m : Manifest) (st : ConfigState) (hov sel : Option String)
    (meshName : String) : MeshDecision :=
  match alGet (getSelectedMaterials m st) meshName with
  | some d =>
    let hl :=
      match findPartForMesh meshName (m.configurableParts.getD []) m with
      | some pid => highlightFor hov sel pid
      | none => false
    .legacy d hl
  | none => .unchanged

/-- The generic part-resolution path of the applicator (everything
after the fixed-black and hub checks): guard on
`configurableParts && finishModes`, Part Resolver, exclusion filter,
Material Resolver, default material, legacy fallback. -/
def applyMeshGeneric (m : Manifest) (st : ConfigState) (hov sel : Option String)
    (meshName : String) : MeshDecision :=
  match m.configurableParts, m.finishModes with
  | some ids, some fm =>
    match findPartForMesh meshName ids m with
    | some pid =>
      if isExcludedFromColor meshName pid m then .excluded
      else
        match resolveMaterialToApply fm st pid with
        | some d => .applied pid d (highlightFor hov sel pid)
        | none => .appliedDefault pid
    | none => legacyApply m st hov sel meshName
  | _, _ => legacyApply m st hov sel meshName

/-- One mesh of the material-application pass (TestModelViewer.tsx
lines 498-726): fixed-black check first, then the hub-mount special
case (which short-circuits only when it finds a material), then the
generic path. -/
def applyMesh (m : Manifest) (st : ConfigState) (hov sel : Option String)
    (meshName : String) : MeshDecision :=
  if FIXED_BLACK_PARTS.contains meshName then .fixedBlack
  else if meshName = "Direct_Thread_HUB_Mount" ∧ jsTruthyS st.selectedSuppressor ∧
          st.selectedSuppressor ≠ some "none" then
    match m.finishModes with
    | none => .crash
    | some fm =>
      match hubSuppressorMaterial fm st with
      | some d => .hubCoupled d
      | none => applyMeshGeneric m st hov sel meshName
  else applyMeshGeneric m st hov sel meshName

/-- The observable value of a `MeshStandardMaterial` as this engine
configures one: colour, metalness, roughness, texture map with its
repeat setting, and emissive highlight state.  A fresh material has
black emissive at three.js's default intensity 1. -/
structure RenderMaterial where
  color : Option String := none
  metalness : ℚ := 0
  roughness : ℚ := 0
  mapUrl : Option String := none
  mapRepeat : Option (ℚ × ℚ) := none
  emissive : ℕ := 0
  emissiveIntensity : ℚ := 1
deriving DecidableEq

/-- The texture cache (`textureCache`): key → the repeat pair stored
on the cached texture handle.  Keys are either a bare texture URL
(base entry) or `url_partId` (per-part entry). -/
def TexCache : Type := List (String × (ℚ × ℚ))

/-- Lookup in the texture cache. -/
def cacheGet (c : TexCache) (k : String) : Option (ℚ × ℚ) :=
  alGet c k

/-- `textureCache.set`. -/
def cacheSet (c : TexCache) (k : String) (v : ℚ × ℚ) : TexCache :=
  alSet c k v

/-- The repeat pair chosen on a cache miss
(`materialDef.repeat[partId] || materialDef.repeat.default || [1,1]`,
guarded by `materialDef.repeat && partId`). -/
def repeatFromDef (d : MaterialDef) (pid : Option String) : ℚ × ℚ :=
  match d.repeatMap, pid with
  | some rm, some p =>
    if p ≠ "" then ((alGet rm p).orElse (fun _ => alGet rm "default")).getD (1, 1)
    else (1, 1)
  | _, _ => (1, 1)

/-- The key of a per-part texture-cache entry:
`${materialDef.textureUrl}_${partId}` (an absent part id renders as
the string `undefined` in the template literal). -/
def texKey (d : MaterialDef) (pid : Option String) : String :=
  d.textureUrl.getD "" ++ "_" ++ pid.getD "undefined"

/-- The material value built for a texture definition with a given
effective repeat pair. -/
def texMaterial (d : MaterialDef) (rep : ℚ × ℚ) : RenderMaterial :=
  { color := none, metalness := d.metalness.getD (mkRat 2 10),
    roughness := d.roughness.getD (mkRat 8 10),
    mapUrl := some (d.textureUrl.getD ""), mapRepeat := some rep }

/-- The material value built for a colour (non-texture) definition:
`color || '#666666'`, metalness `?? 0.3`, roughness `?? 0.8`. -/
def colorMaterial (d : MaterialDef) : RenderMaterial :=
  { color := some (match d.color with
      | some col => if col = "" then "#666666" else col
      | none => "#666666"),
    metalness := d.metalness.getD (mkRat 3 10),
    roughness := d.roughness.getD (mkRat 8 10) }

/-- `createMaterialFromDefinition(materialDef, partId)`
(TestModelViewer.tsx lines 269-354), with the texture cache threaded
explicitly.  A texture definition consults the per-part cache entry
first; on a miss the repeat pair is computed from the definition and
cached under the per-part key (and, when the base URL entry is also
absent, under the bare URL as well - the source caches the freshly
loaded texture object before setting its repeat, so the base entry
carries the same pair).  Any other definition yields a colour
material and leaves the cache untouched. -/
def createMaterialFromDefinition (c : TexCache) (d : MaterialDef)
    (pid : Option String) : RenderMaterial × TexCache :=
  if d.type = some "texture" ∧ jsTruthyS d.textureUrl then
    match cacheGet c (texKey d pid) with
    | some rep => (texMaterial d rep, c)
    | none =>
      match cacheGet c (d.textureUrl.getD "") with
      | some _ =>
        (texMaterial d (repeatFromDef d pid),
         cacheSet c (texKey d pid) (repeatFromDef d pid))
      | none =>
        (texMaterial d (repeatFromDef d pid),
         cacheSet (cacheSet c (d.textureUrl.getD "") (repeatFromDef d pid))
           (texKey d pid) (repeatFromDef d pid))
  else
    (colorMaterial d, c)

/-- The static neutral-dark material the applicator builds for fixed
and colour-excluded meshes (`#1a1a1a`, metalness 0.2,
roughness 0.8). -/
def fixedBlackMaterial : RenderMaterial :=
  { color := some "#1a1a1a", metalness := mkRat 2 10, roughness := mkRat 8 10 }

/-- The generic default material for configurable parts that resolve
to no definition (`#666666`, metalness 0.3, roughness 0.8). -/
def defaultGrayMaterial : RenderMaterial :=
  { color := some "#666666", metalness := mkRat 3 10, roughness := mkRat 8 10 }

/-- Realize a per-mesh decision as a material value, threading the
texture cache; `unchanged` (and the crash point, which assigns
nothing) keep the mesh's previous material.  The highlight overlay
sets the emissive colour to `0xBA2025` at intensity 0.4, and clears
it to black at intensity 0 otherwise, exactly as lines 681-702 do in
the branches that assign a resolved material. -/
def realizeDecision (c : TexCache) (dec : MeshDecision) (old : RenderMaterial) :
    RenderMaterial × TexCache :=
  match dec with
  | .fixedBlack => (fixedBlackMaterial, c)
  | .crash => (old, c)
  | .excluded => (fixedBlackMaterial, c)
  | .hubCoupled d => createMaterialFromDefinition c d (some "muzzleBrake")
  | .applied pid d hl =>
    let r := createMaterialFromDefinition c d (some pid)
    ({ r.1 with emissive := if hl then 0xBA2025 else 0,
                emissiveIntensity := if hl then mkRat 4 10 else 0 }, r.2)
  | .appliedDefault _ => (defaultGrayMaterial, c)
  | .legacy d hl =>
    let r := createMaterialFromDefinition c d none
    ({ r.1 with emissive := if hl then 0xBA2025 else 0,
                emissiveIntensity := if hl then mkRat 4 10 else 0 }, r.2)
  | .unchanged => (old, c)

/-- One mesh of the pass, from decision to assigned material. -/
def applyMeshMat (m : Manifest) (st : ConfigState) (hov sel : Option String)
    (meshName : String) (c : TexCache) (old : RenderMaterial) :
    RenderMaterial × TexCache :=
  realizeDecision c (applyMesh m st hov sel meshName) old

/-- A full applicator pass over the scene: every named mesh in
order, threading the texture cache, producing the new per-mesh
material assignment. -/
def applyPass (m : Manifest) (st : ConfigState) (hov sel : Option String) :
    TexCache → List (String × RenderMaterial) →
    List (String × RenderMaterial) × TexCache
  | c, [] => ([], c)
  | c, (name, old) :: rest =>
    let r := applyMeshMat m st hov sel name c old
    let rr := applyPass m st hov sel r.2 rest
    ((name, r.1) :: rr.1, rr.2)

/-- `setFinishMode(mode)` from useConfigStore.ts lines 218-238.
Fresh config ids come from an external generator and are passed in
explicitly.  Switching to `colors` clears `partColorOverrides`;
switching to `patterns` preserves all customisations. -/
def setFinishMode (newId mode : String) (s : ConfigState) : ConfigState :=
  if mode = "colors" then
    { s with finishMode := mode, configId := newId, partColorOverrides := [] }
  else
    { s with finishMode := mode, configId := newId }

/-- `selectPattern(patternId)` from useConfigStore.ts lines 240-251. -/
def selectPattern (newId patternId : String) (s : ConfigState) : ConfigState :=
  { s with selectedPattern := some patternId, finishMode := "patterns",
           partColorOverrides := [], configId := newId }

/-- `setPartColorOverride(partId, colorId)` from useConfigStore.ts
lines 302-321. -/
def setPartColorOverride (newId pid : String) (colorId : Option String)
    (s : ConfigState) : ConfigState :=
  match colorId with
  | none =>
    { s with partColorOverrides := alErase s.partColorOverrides pid,
             configId := newId }
  | some c =>
    { s with partColorOverrides := alSet s.partColorOverrides pid c,
             configId := newId }

/-- `selectPartColor(partId, colorId)` from useConfigStore.ts lines
253-281: in pattern mode it delegates to `setPartColorOverride`;
in colour mode it updates `selectedColors`, auto-syncing
`carryHandle` and `handleClamp` with each other. -/
def selectPartColor (newId pid colorId : String) (s : ConfigState) : ConfigState :=
  if s.finishMode = "patterns" then
    setPartColorOverride newId pid (some colorId) s
  else
    let n1 := alSet s.selectedColors pid colorId
    let n2 :=
      if pid = "carryHandle" then alSet n1 "handleClamp" colorId
      else if pid = "handleClamp" then alSet n1 "carryHandle" colorId
      else n1
    { s with selectedColors := n2, finishMode := "colors", configId := newId }

/-- A concrete colour option definition used by the example
manifest. -/
def mdefColorBlack : MaterialDef :=
  { type := some "color", color := some "#111111",
    metalness := some (mkRat 3 10), roughness := some (mkRat 8 10) }

/-- A second concrete colour option definition. -/
def mdefColorOdg : MaterialDef :=
  { type := some "color", color := some "#5a6b4f" }

/-- A concrete texture (pattern) option definition. -/
def mdefPatternKryptek : MaterialDef :=
  { type := some "texture", textureUrl := some "/textures/kryptek-raid.jpg",
    repeatMap := some [("default", (mkRat 2 1, mkRat 2 1))] }

/-- Finish modes of the example manifest: two colours, one pattern. -/
def demoFinishModes : FinishModes :=
  { colors := some { options := some [
      { id := "black", material := mdefColorBlack },
      { id := "odg", material := mdefColorOdg }] },
    patterns := some { options := some [
      { id := "kryptek-raid", material := mdefPatternKryptek }] } }

/-- A small concrete manifest in the shape the engine consumes. -/
def demoManifest : Manifest :=
  { parts := some [
      { id := "barrel", meshSelectors := some ["Barrel_*"] },
      { id := "stock", meshSelectors := some ["Stock"] },
      { id := "muzzleBrake", meshSelectors := some ["Muzzle_Brake"] }],
    configurableParts := some ["barrel", "stock", "muzzleBrake"],
    finishModes := some demoFinishModes }

/-- Witness state for C1: pattern selected, one override on part
`A`. -/
def stC1w : ConfigState :=
  { finishMode := "patterns", selectedPattern := some "kryptek-raid",
    partColorOverrides := [("barrel", "black")] }

/-- Witness state for C2: a busy configuration that must not affect a
fixed mesh. -/
def stC2w : ConfigState :=
  { finishMode := "patterns", selectedPattern := some "kryptek-raid",
    selectedColors := [("barrel", "odg")],
    partColorOverrides := [("stock", "black")],
    selectedSuppressor := some "m3-suppressor" }

/-- Counterexample state for C3: suppressor attached, patterns mode
with no pattern chosen, the muzzle brake coloured only through
`selectedColors`. -/
def stC3cx : ConfigState :=
  { finishMode := "patterns", selectedPattern := none,
    selectedColors := [("muzzleBrake", "black")],
    partColorOverrides := [],
    selectedSuppressor := some "m3-suppressor" }

/-- Witness state for the amended C3: suppressor attached, colours
mode, an override on the muzzle brake. -/
def stC3w : ConfigState :=
  { finishMode := "colors",
    selectedColors := [("muzzleBrake", "black")],
    partColorOverrides := [("muzzleBrake", "odg")],
    selectedSuppressor := some "m3-suppressor" }

/-- Counterexample state for C6: an override is present before the
mode toggle. -/
def stC6cx : ConfigState :=
  { finishMode := "patterns", selectedPattern := some "kryptek-raid",
    selectedColors := [("barrel", "black")],
    partColorOverrides := [("barrel", "odg")] }

/-- Counterexample state for C7: patterns mode with a valid selected
pattern but an override whose colour id exists in no option list. -/
def stC7cx : ConfigState :=
  { finishMode := "patterns", selectedPattern := some "kryptek-raid",
    partColorOverrides := [("barrel", "nonexistent")] }

/-- `stC7cx` with the inconsistent entry removed (what "treated as
absent" would mean). -/
def stC7cxErased : ConfigState :=
  { finishMode := "patterns", selectedPattern := some "kryptek-raid",
    partColorOverrides := [] }

/-- Witness state for the amended C7. -/
def stC7w : ConfigState :=
  { finishMode := "patterns", selectedPattern := some "kryptek-raid",
    partColorOverrides := [("barrel", "ghost")] }

/-- Witness state for C9/C10-style store claims: colours mode with
one colour chosen. -/
def stC10w : ConfigState :=
  { finishMode := "colors", selectedColors := [("barrel", "odg")] }

/-- A concrete texture definition whose tiling map has only a
`default` entry (C9 witness). -/
def texDefDefaultOnly : MaterialDef :=
  { type := some "texture", textureUrl := some "/t/k.jpg",
    repeatMap := some [("default", (mkRat 2 1, mkRat 3 1))] }

/-- Cache extension: every entry of the first cache is present,
unchanged, in the second.  The texture cache only ever grows this
way (entries are written once, on a miss, and never overwritten). -/
def cacheExtends (c1 c2 : TexCache) : Prop :=
  ∀ k v, cacheGet c1 k = some v → cacheGet c2 k = some v

theorem alGet_nil {α : Type} (k : String) :
    alGet ([] : List (String × α)) k = none := rfl

theorem alGet_cons {α : Type} (hd : String × α) (tl : List (String × α))
    (k : String) :
    alGet (hd :: tl) k = if hd.1 == k then some hd.2 else alGet tl k := by
  cases h : hd.1 == k <;> simp [alGet, List.find?, h]

theorem alSet_cons {α : Type} (hd : String × α) (tl : List (String × α))
    (k : String) (v : α) :
    alSet (hd :: tl) k v =
      if hd.1 == k then alSet tl k v else hd :: alSet tl k v := by
  cases h : hd.1 == k <;> simp [alSet, List.filter, h]

theorem alErase_cons {α : Type} (hd : String × α) (tl : List (String × α))
    (k : String) :
    alErase (hd :: tl) k =
      if hd.1 == k then alErase tl k else hd :: alErase tl k := by
  cases h : hd.1 == k <;> simp [alErase, List.filter, h]

theorem alGet_set_self {α : Type} (m : List (String × α)) (k : String) (v : α) :
    alGet (alSet m k v) k = some v := by
  induction m with
  | nil => simp [alGet, alSet, List.find?]
  | cons hd tl ih =>
    rw [alSet_cons]
    cases h : hd.1 == k with
    | true => simpa [h] using ih
    | false => rw [if_neg (by simp [h]), alGet_cons, if_neg (by simp [h])]; exact ih

theorem alGet_set_ne {α : Type} (m : List (String × α)) (k k' : String) (v : α)
    (h : k' ≠ k) : alGet (alSet m k v) k' = alGet m k' := by
  have hkk : (k == k') = false := beq_eq_false_iff_ne.mpr (fun hh => h hh.symm)
  induction m with
  | nil =>
    show alGet [(k, v)] k' = alGet [] k'
    rw [alGet_cons]
    simp [hkk]
  | cons hd tl ih =>
    rw [alSet_cons]
    cases hh : hd.1 == k with
    | true =>
      rw [if_pos (by simp [hh])]
      have hd2 : (hd.1 == k') = false := by
        have h1 : hd.1 = k := by simpa using hh
        exact beq_eq_false_iff_ne.mpr (fun hhh => h ((h1 ▸ hhh).symm))
      rw [ih, alGet_cons, if_neg (by simp [hd2])]
    | false =>
      rw [if_neg (by simp [hh]), alGet_cons, alGet_cons, ih]

theorem alGet_erase_ne {α : Type} (m : List (String × α)) (k k' : String)
    (h : k' ≠ k) : alGet (alErase m k) k' = alGet m k' := by
  induction m with
  | nil => rfl
  | cons hd tl ih =>
    rw [alErase_cons]
    cases hh : hd.1 == k with
    | true =>
      rw [if_pos (by simp [hh])]
      have hd2 : (hd.1 == k') = false := by
        have h1 : hd.1 = k := by simpa using hh
        exact beq_eq_false_iff_ne.mpr (fun hhh => h ((h1 ▸ hhh).symm))
      rw [ih, alGet_cons, if_neg (by simp [hd2])]
    | false =>
      rw [if_neg (by simp [hh]), alGet_cons, alGet_cons, ih]

theorem list_any_congr {α : Type} (l : List α) (f g : α → Bool)
    (h : ∀ a ∈ l, f a = g a) : l.any f = l.any g := by
  induction l with
  | nil => rfl
  | cons a tl ih =>
    simp [List.any, h a (by simp), ih (fun x hx => h x (by simp [hx]))]

theorem mem_starSuffixes (star : Char → Bool) :
    ∀ (ms rest : List Char), rest ∈ starSuffixes star ms → ∀ c ∈ rest, c ∈ ms := by
  intro ms
  induction ms with
  | nil =>
    intro rest h c hc
    simp [starSuffixes] at h
    subst h
    simp at hc
  | cons a tl ih =>
    intro rest h c hc
    rcases List.mem_cons.mp h with h1 | h1
    · subst h1
      exact hc
    · by_cases hs : star a
      · have h2 : rest ∈ starSuffixes star tl := by simpa [hs] using h1
        exact List.mem_cons_of_mem a (ih rest h2 c hc)
      · simp [hs] at h1

theorem starSuffixes_congr (p q : Char → Bool) :
    ∀ ms : List Char, (∀ c ∈ ms, p c = q c) →
    starSuffixes p ms = starSuffixes q ms := by
  intro ms
  induction ms with
  | nil => intro _; rfl
  | cons a tl ih =>
    intro h
    have ha : p a = q a := h a (by simp)
    have ht : ∀ c ∈ tl, p c = q c := fun c hc => h c (by simp [hc])
    simp [starSuffixes, ha, ih ht]

theorem globMatchP_congr (p q : Char → Bool) :
    ∀ (pat ms : List Char), (∀ c ∈ ms, p c = q c) →
    globMatchP p pat ms = globMatchP q pat ms := by
  intro pat
  induction pat with
  | nil => intro ms _; rfl
  | cons a ps ih =>
    intro ms h
    by_cases ha : a = '*'
    · simp only [globMatchP, if_pos ha]
      rw [starSuffixes_congr p q ms h]
      exact list_any_congr _ _ _
        (fun rest hrest =>
          ih rest (fun c hc => h c (mem_starSuffixes q ms rest hrest c hc)))
    · simp only [globMatchP, if_neg ha]
      cases ms with
      | nil => rfl
      | cons c ms2 =>
        have h2 : ∀ x ∈ ms2, p x = q x := fun x hx => h x (by simp [hx])
        simp [ih ms2 h2]

theorem cacheExtends_refl (c : TexCache) : cacheExtends c c := fun _ _ h => h

theorem cacheExtends_trans {c1 c2 c3 : TexCache}
    (h1 : cacheExtends c1 c2) (h2 : cacheExtends c2 c3) : cacheExtends c1 c3 :=
  fun k v h => h2 k v (h1 k v h)

theorem cacheExtends_set (c : TexCache) (k : String) (v : ℚ × ℚ)
    (h : cacheGet c k = none) : cacheExtends c (cacheSet c k v) := by
  intro k' v' hget
  have hne : k' ≠ k := by
    intro hh
    rw [hh, h] at hget
    exact Option.noConfusion hget
  show alGet (alSet c k v) k' = some v'
  rw [alGet_set_ne c k k' v hne]
  exact hget

theorem texKey_ne_url (d : MaterialDef) (pid : Option String) :
    texKey d pid ≠ d.textureUrl.getD "" := by
  intro h
  have hlen := congrArg String.length h
  rw [texKey, String.length_append, String.length_append] at hlen
  have h1 : "_".length = 1 := rfl
  rw [h1] at hlen
  omega

theorem createMaterial_mono (c : TexCache) (d : MaterialDef) (pid : Option String) :
    cacheExtends c (createMaterialFromDefinition c d pid).2 := by
  unfold createMaterialFromDefinition
  by_cases htex : d.type = some "texture" ∧ jsTruthyS d.textureUrl
  · rw [if_pos htex]
    cases hkey : cacheGet c (texKey d pid) with
    | some rep => exact cacheExtends_refl c
    | none =>
      cases hurl : cacheGet c (d.textureUrl.getD "") with
      | some rep0 => exact cacheExtends_set c _ _ hkey
      | none =>
        have h1 : cacheExtends c
            (cacheSet c (d.textureUrl.getD "") (repeatFromDef d pid)) :=
          cacheExtends_set c _ _ hurl
        have hkey2 : cacheGet
            (cacheSet c (d.textureUrl.getD "") (repeatFromDef d pid))
            (texKey d pid) = none := by
          show alGet (alSet c _ _) _ = none
          rw [alGet_set_ne c _ _ _ (texKey_ne_url d pid)]
          exact hkey
        exact cacheExtends_trans h1 (cacheExtends_set _ _ _ hkey2)
  · rw [if_neg htex]
    exact cacheExtends_refl c

theorem createMaterial_agree (c C : TexCache) (d : MaterialDef) (pid : Option String)
    (h : cacheExtends (createMaterialFromDefinition c d pid).2 C) :
    (createMaterialFromDefinition C d pid).1 =
      (createMaterialFromDefinition c d pid).1 := by
  by_cases htex : d.type = some "texture" ∧ jsTruthyS d.textureUrl
  · cases hkey : cacheGet c (texKey d pid) with
    | some rep =>
      have hC : cacheGet C (texKey d pid) = some rep := by
        apply h
        simp only [createMaterialFromDefinition, if_pos htex, hkey]
      simp only [createMaterialFromDefinition, if_pos htex, hkey, hC]
    | none =>
      have hC : cacheGet C (texKey d pid) = some (repeatFromDef d pid) := by
        apply h
        cases hurl : cacheGet c (d.textureUrl.getD "") with
        | some rep0 =>
          simp only [createMaterialFromDefinition, if_pos htex, hkey, hurl]
          exact alGet_set_self _ _ _
        | none =>
          simp only [createMaterialFromDefinition, if_pos htex, hkey, hurl]
          exact alGet_set_self _ _ _
      cases hurl : cacheGet c (d.textureUrl.getD "") <;>
        simp only [createMaterialFromDefinition, if_pos htex, hkey, hC, hurl]
  · simp only [createMaterialFromDefinition, if_neg htex]

theorem realize_mono (c : TexCache) (dec : MeshDecision) (old : RenderMaterial) :
    cacheExtends c (realizeDecision c dec old).2 := by
  cases dec with
  | hubCoupled d => exact createMaterial_mono c d (some "muzzleBrake")
  | applied pid d hl => exact createMaterial_mono c d (some pid)
  | legacy d hl => exact createMaterial_mono c d none
  | fixedBlack => exact cacheExtends_refl c
  | crash => exact cacheExtends_refl c
  | excluded => exact cacheExtends_refl c
  | appliedDefault pid => exact cacheExtends_refl c
  | unchanged => exact cacheExtends_refl c

theorem realize_stable (c C : TexCache) (dec : MeshDecision) (old : RenderMaterial)
    (h : cacheExtends (realizeDecision c dec old).2 C) :
    (realizeDecision C dec ((realizeDecision c dec old).1)).1 =
      (realizeDecision c dec old).1 := by
  cases dec with
  | hubCoupled d =>
    exact createMaterial_agree c C d (some "muzzleBrake") h
  | applied pid d hl =>
    have hagree := createMaterial_agree c C d (some pid) h
    simp only [realizeDecision, hagree]
  | legacy d hl =>
    have hagree := createMaterial_agree c C d none h
    simp only [realizeDecision, hagree]
  | fixedBlack => rfl
  | crash => rfl
  | excluded => rfl
  | appliedDefault pid => rfl
  | unchanged => rfl

theorem pass_mono (m : Manifest) (st : ConfigState) (hov sel : Option String) :
    ∀ (meshes : List (String × RenderMaterial)) (c : TexCache),
    cacheExtends c (applyPass m st hov sel c meshes).2 := by
  intro meshes
  induction meshes with
  | nil => intro c; exact cacheExtends_refl c
  | cons hd tl ih =>
    intro c
    simp only [applyPass]
    exact cacheExtends_trans
      (realize_mono c (applyMesh m st hov sel hd.1) hd.2)
      (ih _)

theorem pass_stable (m : Manifest) (st : ConfigState) (hov sel : Option String) :
    ∀ (meshes : List (String × RenderMaterial)) (c C : TexCache),
    cacheExtends (applyPass m st hov sel c meshes).2 C →
    (applyPass m st hov sel C ((applyPass m st hov sel c meshes).1)).1 =
      (applyPass m st hov sel c meshes).1 := by
  intro meshes
  induction meshes with
  | nil => intro c C _; rfl
  | cons hd tl ih =>
    intro c C h
    simp only [applyPass, applyMeshMat] at h ⊢
    have htail : cacheExtends
        (applyPass m st hov sel
          (realizeDecision c (applyMesh m st hov sel hd.1) hd.2).2 tl).2 C := h
    have hmid : cacheExtends
        (realizeDecision c (applyMesh m st hov sel hd.1) hd.2).2 C :=
      cacheExtends_trans (pass_mono m st hov sel tl _) htail
    have hhead := realize_stable _ C (applyMesh m st hov sel hd.1) hd.2 hmid
    rw [hhead]
    have hC : cacheExtends
        (applyPass m st hov sel
          (realizeDecision c (applyMesh m st hov sel hd.1) hd.2).2 tl).2
        (realizeDecision C (applyMesh m st hov sel hd.1)
          ((realizeDecision c (applyMesh m st hov sel hd.1) hd.2).1)).2 :=
      cacheExtends_trans htail
        (realize_mono C (applyMesh m st hov sel hd.1) _)
    rw [ih _ _ hC]

/-- C4: for every mesh name, the Part Resolver iterates configurable
part ids in the order given (manifest-declared order at every call
site) and returns the first part id whose manifest entry has any
selector matching the mesh name, and `none` exactly when no part
matches; being a pure function of its inputs, resolution is
deterministic and first-match-wins even when several parts'
selectors would match. -/
theorem claim_C4_first_match_wins (meshName : String) (ids : List String)
    (m : Manifest) :
    findPartForMesh meshName ids m = ids.find? (partMatchesMesh m meshName) ∧
    (findPartForMesh meshName ids m = none ↔
      ∀ pid ∈ ids, partMatchesMesh m meshName pid = false) := by
  have h1 : findPartForMesh meshName ids m = ids.find? (partMatchesMesh m meshName) := by
    induction ids with
    | nil => rfl
    | cons pid rest ih =>
      cases hfp : findPartById m pid with
      | none => simp [findPartForMesh, hfp, partMatchesMesh, List.find?, ih]
      | some part =>
        cases hms : part.meshSelectors with
        | none => simp [findPartForMesh, hfp, hms, partMatchesMesh, List.find?, ih]
        | some sels =>
          cases hany : sels.any (fun sel => meshMatchesSelector meshName sel) with
          | true => simp [findPartForMesh, hfp, hms, hany, partMatchesMesh, List.find?]
          | false => simp [findPartForMesh, hfp, hms, hany, partMatchesMesh, List.find?, ih]
  refine ⟨h1, ?_⟩
  rw [h1, List.find?_eq_none]
  constructor
  · intro h pid hmem
    exact Bool.not_eq_true _ ▸ (by simpa using h pid hmem)
  · intro h pid hmem
    simp [h pid hmem]

/-- C5 counterexample: the claim describes the wildcard `*` as
matching "zero or more of any character", but the source compiles it
to an (un-dotall) regex `.*`, which does not cross a line
terminator; at mesh name `"a\nb"` and selector `"a*b"` the claimed
rules say true while the source returns false. -/
theorem claim_C5_counterexample :
    matchesClaimRules "a\nb" "a*b" = true ∧
    meshMatchesSelector "a\nb" "a*b" = false := by
  constructor <;> decide

/-- C5 amended: `meshMatchesSelector` is the ordered-rule function
of the claim - exact equality, then wildcard, then bare-keyword
substring, then normalised fuzzy containment, first success wins -
provided the wildcard is read as "zero or more of any character
other than a line terminator"; on mesh names without line
terminators it agrees with the claim's reading verbatim, and the
claim's two concrete wildcard examples hold. -/
theorem claim_C5_amended :
    (∀ m s : String, meshMatchesSelector m s = matchesClaimRulesAmended m s) ∧
    (∀ m s : String, (∀ c ∈ m.data, isLineTerminatorChar c = false) →
      meshMatchesSelector m s = matchesClaimRules m s) ∧
    meshMatchesSelector "M200_Rifle_-_Alpha_Suppressor"
      "M200_Rifle_-_*_Suppressor*" = true ∧
    meshMatchesSelector "M200_Rifle_-_Alpha_Brake"
      "M200_Rifle_-_*_Suppressor*" = false := by
  refine ⟨fun m s => rfl, ?_, by decide, by decide⟩
  intro m s h
  by_cases h1 : m = s
  · simp [meshMatchesSelector, matchesClaimRules, h1]
  · by_cases h2 : s.data.contains '*'
    · have hcong : globMatchP jsStarChar s.data m.data =
          globMatchP (fun _ => true) s.data m.data := by
        apply globMatchP_congr
        intro c hc
        simp [jsStarChar, h c hc]
      simp [meshMatchesSelector, matchesClaimRules, h1, h2,
        wildcardRuleCode, wildcardRuleAnyChar, hcong]
    · have h2m : ¬ ('*' ∈ s.data) := by simpa using h2
      simp [meshMatchesSelector, matchesClaimRules, h1, h2m]

/-- C5 amended, witness: the equivalence instantiated at a concrete
line-terminator-free mesh name. -/
theorem claim_C5_amended_witness :
    meshMatchesSelector "Barrel_Fluted_01" "Barrel_*" =
      matchesClaimRules "Barrel_Fluted_01" "Barrel_*" ∧
    (∀ c ∈ "Barrel_Fluted_01".data, isLineTerminatorChar c = false) :=
  ⟨claim_C5_amended.2.1 "Barrel_Fluted_01" "Barrel_*" (by decide), by decide⟩

/-- C6 counterexample: the claim says `partColorOverrides` survives
`setFinishMode("colors")` followed by `setFinishMode("patterns")`,
but switching to colours mode clears all overrides, so a state with
a non-empty override map refutes it. -/
theorem claim_C6_counterexample :
    (setFinishMode "id2" "patterns"
      (setFinishMode "id1" "colors" stC6cx)).partColorOverrides ≠
      stC6cx.partColorOverrides := by
  decide

/-- C6 amended: after `setFinishMode("colors")` then
`setFinishMode("patterns")` (no other actions in between),
`selectedColors` equals its value before the toggle, but
`partColorOverrides` is empty - `setFinishMode("colors")` clears the
override map, so only the colour-mode selections survive the
round trip. -/
theorem claim_C6_amended (s : ConfigState) (id1 id2 : String) :
    (setFinishMode id2 "patterns"
      (setFinishMode id1 "colors" s)).selectedColors = s.selectedColors ∧
    (setFinishMode id2 "patterns"
      (setFinishMode id1 "colors" s)).partColorOverrides = [] ∧
    (setFinishMode id2 "patterns"
      (setFinishMode id1 "colors" s)).finishMode = "patterns" := by
  refine ⟨?_, ?_, ?_⟩ <;> simp [setFinishMode]

/-- C8: the material-application pass is idempotent - with the
configuration state, manifest, hover/selection and scene fixed,
running the pass a second time immediately after a first pass (the
second pass starting from the first pass's mesh materials and
texture-cache state) assigns exactly the same material to every
mesh: no drift and no accumulation of highlight (emissive) state.
Determinism (same state yields the same assignment) holds because
`applyPass` is a function of its inputs. -/
theorem claim_C8_applyMaterials_idempotent (m : Manifest) (st : ConfigState)
    (hov sel : Option String) (meshes : List (String × RenderMaterial))
    (c0 : TexCache) :
    (applyPass m st hov sel (applyPass m st hov sel c0 meshes).2
      (applyPass m st hov sel c0 meshes).1).1 =
      (applyPass m st hov sel c0 meshes).1 :=
  pass_stable m st hov sel meshes c0 (applyPass m st hov sel c0 meshes).2
    (cacheExtends_refl _)

/-- C9: for a texture material definition with a tiling map and a
(non-empty) part id whose per-part cache entry is not yet populated,
the tiling pair applied to the created material is the map's entry
for the part id if present, else the map's `default` entry if
present, else `[1, 1]`. -/
theorem claim_C9_tiling_fallback (c : TexCache) (d : MaterialDef) (pid : String)
    (rm : List (String × (ℚ × ℚ)))
    (htype : d.type = some "texture") (hurl : jsTruthyS d.textureUrl = true)
    (hrm : d.repeatMap = some rm) (hpid : pid ≠ "")
    (hmiss : cacheGet c (texKey d (some pid)) = none) :
    (createMaterialFromDefinition c d (some pid)).1.mapRepeat =
      some (((alGet rm pid).orElse (fun _ => alGet rm "default")).getD (1, 1)) := by
  have htex : d.type = some "texture" ∧ jsTruthyS d.textureUrl := ⟨htype, hurl⟩
  have hrep : repeatFromDef d (some pid) =
      ((alGet rm pid).orElse (fun _ => alGet rm "default")).getD (1, 1) := by
    simp [repeatFromDef, hrm, hpid]
  cases hurl2 : cacheGet c (d.textureUrl.getD "") <;>
    simp [createMaterialFromDefinition, if_pos htex, hmiss, hurl2, texMaterial, hrep]

/-- C9 witness: with a tiling map containing only a `default` entry
of `[2, 3]`, a part id absent from the map receives `[2, 3]`. -/
theorem claim_C9_witness :
    (createMaterialFromDefinition [] texDefDefaultOnly (some "barrel")).1.mapRepeat =
      some (mkRat 2 1, mkRat 3 1) := by
  have h := claim_C9_tiling_fallback [] texDefDefaultOnly "barrel"
    [("default", (mkRat 2 1, mkRat 3 1))] rfl (by decide) rfl (by decide) rfl
  simpa [alGet] using h

theorem jsTruthyS_some (s : String) : jsTruthyS (some s) = !(s == "") := rfl

theorem jsTruthyS_none : jsTruthyS none = false := rfl

/-- C2: a mesh whose name is on the fixed-black list is assigned the
static neutral-dark material by the application pass, for every
configuration state (any finish mode, pattern, colours, overrides,
hardware selection, hover/selection), and the pass does nothing else
to it (the texture cache is untouched); fixed meshes are never
affected by configuration state, regardless of part membership. -/
theorem claim_C2_fixed_black (m : Manifest) (st : ConfigState)
    (hov sel : Option String) (meshName : String)
    (h : FIXED_BLACK_PARTS.contains meshName = true) :
    applyMesh m st hov sel meshName = .fixedBlack ∧
    ∀ (c : TexCache) (old : RenderMaterial),
      applyMeshMat m st hov sel meshName c old = (fixedBlackMaterial, c) := by
  have hmem : meshName ∈ FIXED_BLACK_PARTS := by simpa using h
  have h1 : applyMesh m st hov sel meshName = .fixedBlack := by
    simp [applyMesh, hmem]
  exact ⟨h1, fun c old => by simp [applyMeshMat, h1, realizeDecision]⟩

/-- C2 witness: a ratchet mesh stays fixed black under a busy
configuration with a pattern, overrides, a suppressor and a hovered
part. -/
theorem claim_C2_witness :
    FIXED_BLACK_PARTS.contains "CT_1-008_Ratchet" = true ∧
    applyMesh demoManifest stC2w (some "barrel") none "CT_1-008_Ratchet" =
      .fixedBlack :=
  ⟨by decide,
   (claim_C2_fixed_black demoManifest stC2w (some "barrel") none
     "CT_1-008_Ratchet" (by decide)).1⟩

/-- C1: in patterns mode the Material Resolver applies the layered
precedence - a (valid) per-part colour override wins over the
pattern; otherwise the selected pattern's definition applies;
otherwise (no pattern selected) it falls back to the override, then
to the colour-mode selection.  In particular, with selectedPattern=P
and partColorOverrides={A: C}, part A resolves to colour C's
definition and any other part B to pattern P's definition. -/
theorem claim_C1_resolver_precedence (fm : FinishModes) (st : ConfigState)
    (hmode : st.finishMode = "patterns") :
    (∀ pid c copt, alGet st.partColorOverrides pid = some c → c ≠ "" →
      findModeOption fm.colors (some c) = some copt →
      resolveMaterialToApply fm st pid = some copt.material)
  ∧ (∀ pid p popt, jsTruthyS (alGet st.partColorOverrides pid) = false →
      st.selectedPattern = some p → p ≠ "" →
      findModeOption fm.patterns (some p) = some popt →
      resolveMaterialToApply fm st pid = some popt.material)
  ∧ (∀ pid c copt, jsTruthyS (alGet st.partColorOverrides pid) = false →
      jsTruthyS st.selectedPattern = false →
      alGet st.selectedColors pid = some c → c ≠ "" →
      findModeOption fm.colors (some c) = some copt →
      resolveMaterialToApply fm st pid = some copt.material)
  ∧ (∀ (A B c P : String) (copt popt : FinishOption),
      st.partColorOverrides = [(A, c)] → c ≠ "" →
      st.selectedPattern = some P → P ≠ "" →
      findModeOption fm.colors (some c) = some copt →
      findModeOption fm.patterns (some P) = some popt →
      B ≠ A →
      resolveMaterialToApply fm st A = some copt.material ∧
      resolveMaterialToApply fm st B = some popt.material) := by
  have h1 : ∀ pid c copt, alGet st.partColorOverrides pid = some c → c ≠ "" →
      findModeOption fm.colors (some c) = some copt →
      resolveMaterialToApply fm st pid = some copt.material := by
    intro pid c copt hov hc hfind
    cases hp : jsTruthyS st.selectedPattern with
    | true => simp [resolveMaterialToApply, hmode, hp, hov, jsTruthyS_some, hc, hfind]
    | false =>
      simp [resolveMaterialToApply, hmode, hp, jsOrS, hov, jsTruthyS_some, hc, hfind]
  have h2 : ∀ pid p popt, jsTruthyS (alGet st.partColorOverrides pid) = false →
      st.selectedPattern = some p → p ≠ "" →
      findModeOption fm.patterns (some p) = some popt →
      resolveMaterialToApply fm st pid = some popt.material := by
    intro pid p popt hovF hp hpne hfind
    have hpT : jsTruthyS (some p) = true := by
      simp [jsTruthyS_some, hpne]
    simp [resolveMaterialToApply, hmode, hp, hpT, hovF, hfind]
  have h3 : ∀ pid c copt, jsTruthyS (alGet st.partColorOverrides pid) = false →
      jsTruthyS st.selectedPattern = false →
      alGet st.selectedColors pid = some c → c ≠ "" →
      findModeOption fm.colors (some c) = some copt →
      resolveMaterialToApply fm st pid = some copt.material := by
    intro pid c copt hovF hpF hsc hc hfind
    simp [resolveMaterialToApply, hmode, hpF, jsOrS, hovF, hsc, jsTruthyS_some,
      hc, hfind]
  refine ⟨h1, h2, h3, ?_⟩
  intro A B c P copt popt hov hc hp hpne hfc hfp hBA
  constructor
  · apply h1 A c copt ?_ hc hfc
    rw [hov]
    simp [alGet, List.find?]
  · apply h2 B P popt ?_ hp hpne hfp
    rw [hov]
    have hAB : (A == B) = false := beq_eq_false_iff_ne.mpr (fun hh => hBA hh.symm)
    simp [alGet, List.find?, hAB, jsTruthyS_none]

/-- C1 witness: with pattern `kryptek-raid` selected and an override
`{barrel: black}`, part `barrel` resolves to the black colour's
definition and part `stock` to the pattern's definition. -/
theorem claim_C1_witness :
    resolveMaterialToApply demoFinishModes stC1w "barrel" = some mdefColorBlack ∧
    resolveMaterialToApply demoFinishModes stC1w "stock" = some mdefPatternKryptek :=
  (claim_C1_resolver_precedence demoFinishModes stC1w rfl).2.2.2
    "barrel" "stock" "black" "kryptek-raid"
    { id := "black", material := mdefColorBlack }
    { id := "kryptek-raid", material := mdefPatternKryptek }
    rfl (by decide) rfl (by decide) rfl rfl (by decide)

/-- C10: in colours mode the carry handle and handle clamp are kept
in sync by `selectPartColor` - selecting either sets both entries to
the chosen colour; selecting any other part changes only that part's
entry; and any prior equality of the two entries is preserved by
every colours-mode selection. -/
theorem claim_C10_carry_handle_sync (s : ConfigState) (nid c : String)
    (hmode : s.finishMode = "colors") :
    (alGet (selectPartColor nid "carryHandle" c s).selectedColors "carryHandle" =
        some c ∧
     alGet (selectPartColor nid "carryHandle" c s).selectedColors "handleClamp" =
        some c)
  ∧ (alGet (selectPartColor nid "handleClamp" c s).selectedColors "carryHandle" =
        some c ∧
     alGet (selectPartColor nid "handleClamp" c s).selectedColors "handleClamp" =
        some c)
  ∧ (∀ p, p ≠ "carryHandle" → p ≠ "handleClamp" →
      alGet (selectPartColor nid p c s).selectedColors p = some c ∧
      ∀ q, q ≠ p → alGet (selectPartColor nid p c s).selectedColors q =
        alGet s.selectedColors q)
  ∧ (∀ p, alGet s.selectedColors "carryHandle" =
        alGet s.selectedColors "handleClamp" →
      alGet (selectPartColor nid p c s).selectedColors "carryHandle" =
        alGet (selectPartColor nid p c s).selectedColors "handleClamp") := by
  have hnp : ¬ (s.finishMode = "patterns") := by
    rw [hmode]
    decide
  have hch : ("carryHandle" : String) ≠ "handleClamp" := by decide
  have hhc : ("handleClamp" : String) ≠ "carryHandle" := by decide
  refine ⟨⟨?_, ?_⟩, ⟨?_, ?_⟩, ?_, ?_⟩
  · simp only [selectPartColor, if_neg hnp]
    simp
    rw [alGet_set_ne _ _ _ _ hch, alGet_set_self]
  · simp only [selectPartColor, if_neg hnp]
    simp
    rw [alGet_set_self]
  · simp only [selectPartColor, if_neg hnp]
    simp
    rw [alGet_set_self]
  · simp only [selectPartColor, if_neg hnp]
    simp
    rw [alGet_set_ne _ _ _ _ hhc, alGet_set_self]
  · intro p hp1 hp2
    constructor
    · simp only [selectPartColor, if_neg hnp]
      simp [hp1, hp2]
      rw [alGet_set_self]
    · intro q hq
      simp only [selectPartColor, if_neg hnp]
      simp [hp1, hp2]
      rw [alGet_set_ne _ _ _ _ hq]
  · intro p heq
    by_cases hp1 : p = "carryHandle"
    · subst hp1
      simp only [selectPartColor, if_neg hnp]
      simp
      rw [alGet_set_ne _ _ _ _ hch, alGet_set_self, alGet_set_self]
    · by_cases hp2 : p = "handleClamp"
      · subst hp2
        simp only [selectPartColor, if_neg hnp]
        simp
        rw [alGet_set_self, alGet_set_ne _ _ _ _ hhc, alGet_set_self]
      · simp only [selectPartColor, if_neg hnp]
        simp [hp1, hp2]
        rw [alGet_set_ne _ _ _ _ (fun hh => hp1 hh.symm),
          alGet_set_ne _ _ _ _ (fun hh => hp2 hh.symm)]
        exact heq

/-- C10 witness: selecting black for the carry handle also sets the
handle clamp. -/
theorem claim_C10_witness :
    alGet (selectPartColor "n1" "carryHandle" "black" stC10w).selectedColors
      "handleClamp" = some "black" :=
  (claim_C10_carry_handle_sync stC10w "n1" "black" rfl).1.2

/-- C3 counterexample: with a suppressor attached, patterns mode
active but no pattern chosen, no overrides, and the muzzle brake
coloured through `selectedColors`, the Material Resolver for
`muzzleBrake` yields the black colour's definition, yet the adapter
mesh is NOT resolved that way: the hub coupling finds no material
(it never consults the patterns-without-pattern fallback), falls
through to generic resolution, and ends up with the legacy table's
`#000000` material - so the coupling does not apply the full
Material Resolver precedence for the hardware-bearing part, and does
not short-circuit whenever a suppressor is attached. -/
theorem claim_C3_counterexample :
    jsTruthyS stC3cx.selectedSuppressor = true ∧
    stC3cx.selectedSuppressor ≠ some "none" ∧
    resolveMaterialToApply demoFinishModes stC3cx "muzzleBrake" =
      some mdefColorBlack ∧
    applyMesh demoManifest stC3cx none none "Direct_Thread_HUB_Mount" =
      .legacy blackMaterial false ∧
    blackMaterial ≠ mdefColorBlack := by
  refine ⟨by decide, by decide, by decide, by decide, by decide⟩

/-- C3 amended: when the selected suppressor is set and not `none`,
the adapter mesh short-circuits to the hub coupling's material only
when that coupling finds one; the coupling's own precedence is: the
muzzle-brake override in ANY finish mode first, else the selected
pattern when in patterns mode, else the muzzle-brake selected colour
when in colours mode (there is no patterns-without-pattern
fallback).  When the coupling finds nothing, or the suppressor is
`none` or absent, the adapter goes through the ordinary
Part Resolver / Material Resolver path. -/
theorem claim_C3_amended (m : Manifest) (fm : FinishModes) (st : ConfigState)
    (hov sel : Option String) :
    (∀ d, jsTruthyS st.selectedSuppressor = true →
      st.selectedSuppressor ≠ some "none" →
      m.finishModes = some fm → hubSuppressorMaterial fm st = some d →
      applyMesh m st hov sel "Direct_Thread_HUB_Mount" = .hubCoupled d)
  ∧ (jsTruthyS st.selectedSuppressor = true →
      st.selectedSuppressor ≠ some "none" →
      m.finishModes = some fm → hubSuppressorMaterial fm st = none →
      applyMesh m st hov sel "Direct_Thread_HUB_Mount" =
        applyMeshGeneric m st hov sel "Direct_Thread_HUB_Mount")
  ∧ (jsTruthyS st.selectedSuppressor = false ∨
      st.selectedSuppressor = some "none" →
      applyMesh m st hov sel "Direct_Thread_HUB_Mount" =
        applyMeshGeneric m st hov sel "Direct_Thread_HUB_Mount")
  ∧ (∀ c copt, alGet st.partColorOverrides "muzzleBrake" = some c → c ≠ "" →
      findModeOption fm.colors (some c) = some copt →
      hubSuppressorMaterial fm st = some copt.material) := by
  have hnf : ¬ ("Direct_Thread_HUB_Mount" ∈ FIXED_BLACK_PARTS) := by decide
  refine ⟨?_, ?_, ?_, ?_⟩
  · intro d hs hn hfm hhub
    simp [applyMesh, hnf, hs, hn, hfm, hhub]
  · intro hs hn hfm hhub
    simp [applyMesh, hnf, hs, hn, hfm, hhub]
  · intro hcase
    rcases hcase with hF | hN
    · simp [applyMesh, hnf, hF]
    · simp [applyMesh, hnf, hN]
  · intro c copt hov2 hc hfind
    simp [hubSuppressorMaterial, hov2, jsTruthyS_some, hc, hfind]

/-- C3 amended, witness: colours mode with an override on the muzzle
brake and a suppressor attached - the adapter short-circuits to the
override's colour (note: the generic Material Resolver would have
ignored the override in colours mode). -/
theorem claim_C3_amended_witness :
    applyMesh demoManifest stC3w none none "Direct_Thread_HUB_Mount" =
      .hubCoupled mdefColorOdg :=
  (claim_C3_amended demoManifest demoFinishModes stC3w none none).1
    mdefColorOdg (by decide) (by decide) rfl rfl

/-- C7 counterexample: an override whose colour id exists in no
option list is not "treated as absent".  With pattern `kryptek-raid`
selected and override `{barrel: "nonexistent"}`, the barrel mesh
gets the generic default material; with the entry actually absent it
gets the pattern's definition - so the invalid entry changes the
outcome (default instead of the pattern), contradicting the claim
and its example. -/
theorem claim_C7_counterexample :
    applyMesh demoManifest stC7cx none none "Barrel_Fluted_01" =
      .appliedDefault "barrel" ∧
    applyMesh demoManifest stC7cxErased none none "Barrel_Fluted_01" =
      .applied "barrel" mdefPatternKryptek false ∧
    MeshDecision.appliedDefault "barrel" ≠
      .applied "barrel" mdefPatternKryptek false :=
  ⟨rfl, rfl, fun h => MeshDecision.noConfusion h⟩

/-- C7 amended: entries keyed by a part id other than the resolved
one (in particular, ids outside configurableParts) never influence a
matched mesh's resolution - erasing them changes nothing; resolution
never crashes (it is a total function); but an override value that
references no existing colour FinishOption makes the affected part's
meshes receive the generic default material rather than the selected
pattern's definition. -/
theorem claim_C7_amended :
    (∀ (fm : FinishModes) (st : ConfigState) (pid k : String), k ≠ pid →
      resolveMaterialToApply fm
        { st with partColorOverrides := alErase st.partColorOverrides k,
                  selectedColors := alErase st.selectedColors k } pid =
        resolveMaterialToApply fm st pid)
  ∧ (∀ (m : Manifest) (ids : List String) (fm : FinishModes) (st : ConfigState)
      (hov sel : Option String) (meshName pid c : String),
      m.configurableParts = some ids → m.finishModes = some fm →
      FIXED_BLACK_PARTS.contains meshName = false →
      meshName ≠ "Direct_Thread_HUB_Mount" →
      findPartForMesh meshName ids m = some pid →
      isExcludedFromColor meshName pid m = false →
      st.finishMode = "patterns" → jsTruthyS st.selectedPattern = true →
      alGet st.partColorOverrides pid = some c → c ≠ "" →
      findModeOption fm.colors (some c) = none →
      applyMesh m st hov sel meshName = .appliedDefault pid) := by
  constructor
  · intro fm st pid k hk
    have h1 : alGet (alErase st.partColorOverrides k) pid =
        alGet st.partColorOverrides pid :=
      alGet_erase_ne _ _ _ (fun hh => hk hh.symm)
    have h2 : alGet (alErase st.selectedColors k) pid =
        alGet st.selectedColors pid :=
      alGet_erase_ne _ _ _ (fun hh => hk hh.symm)
    simp only [resolveMaterialToApply, h1, h2]
  · intro m ids fm st hov sel meshName pid c hcp hfm hFix hHub hfind hexcl
      hmode hpT hov2 hc hnone
    have hFixMem : ¬ (meshName ∈ FIXED_BLACK_PARTS) := by simpa using hFix
    have hovT : jsTruthyS (alGet st.partColorOverrides pid) = true := by
      simp [hov2, jsTruthyS_some, hc]
    have hcT : jsTruthyS (some c) = true := by
      simp [jsTruthyS_some, hc]
    have hres : resolveMaterialToApply fm st pid = none := by
      simp [resolveMaterialToApply, hmode, hpT, hovT, hov2, hcT, hnone]
    simp [applyMesh, hFixMem, hHub, applyMeshGeneric, hcp, hfm, hfind, hexcl, hres]

/-- C7 amended, witness: the invalid-override consequence
instantiated on the example manifest with override
`{barrel: "ghost"}`. -/
theorem claim_C7_amended_witness :
    applyMesh demoManifest stC7w none none "Barrel_Fluted_01" =
      .appliedDefault "barrel" :=
  claim_C7_amended.2 demoManifest ["barrel", "stock", "muzzleBrake"]
    demoFinishModes stC7w none none "Barrel_Fluted_01" "barrel" "ghost"
    rfl rfl (by decide) (by decide) rfl rfl rfl rfl rfl (by decide) rfl
